import Mathlib

/-
Shallow embedding of src/src/main/c/com_github_gw2toolbelt_gw2ml_MumbleLink.c.

The two JNI entry points nOpen and nClose are modelled as pure functions
from an environment oracle (the results of each OS and JNI call the C code
makes) to a trace of observable events plus a return value.  Windows
HANDLE values and view addresses are modelled as Nat, with 0 standing for
NULL.  The trace records, in program order, every resource-relevant call
the C code performs: OpenFileMappingA and CreateFileMappingA (with their
arguments), ReleaseStringUTFChars, exception throws (with class and
message), CloseHandle, UnmapViewOfFile, and the malloc and free of the
GW2MLinstance tracking structure.
-/

/-- Number of bytes of the MumbleLink shared-memory region: the C macro
MUMBLE_LINK_BYTES. -/
def MUMBLE_LINK_BYTES : Nat := 5460

/-- The session tracking structure GW2MLinstance from the C source: the
file-mapping handle and the mapped view address, as stored by nOpen. -/
structure GW2MLinstance where
  hFileMapping : Nat
  linkedMem : Nat
  deriving DecidableEq

/-- A direct byte buffer as produced by NewDirectByteBuffer: it records the
wrapped address and the capacity.  No bytes are copied; the buffer is a
view of the address it stores. -/
structure DirectBuffer where
  addr : Nat
  len : Nat
  deriving DecidableEq

/-- Observable effects of one native call, in program order. -/
inductive Event where
  | openFileMappingCall (name : String)
  | createFileMappingCall (readWrite : Bool) (size : Nat) (name : String)
  | releaseStringChars
  | throwEx (cls : String) (msg : String)
  | closeHandle (h : Nat)
  | unmapView (a : Nat)
  | mallocInstance (inst : GW2MLinstance)
  | freeInstance
  deriving DecidableEq

/-- Return value of nOpen: NULL, or the MumbleLink object built by
NewObject, carrying the tracking-structure contents that were passed as the
jlong constructor argument, the direct buffer (possibly NULL), and the
handle-name string. -/
inductive JObjectRet where
  | null
  | obj (inst : GW2MLinstance) (buffer : Option DirectBuffer) (name : String)
  deriving DecidableEq

/-- Environment oracle for one nOpen call: the results of each OS and JNI
call the function makes.  A handle or address of 0 models NULL. -/
structure OpenEnv where
  name : String
  openFileMapping : Nat
  createFileMapping : Nat
  mapViewOfFile : Nat → Nat
  newDirectByteBufferOk : Bool
  findClassOk : Bool
  getMethodIDOk : Bool
  newObjectOk : Bool

/-- The helper throwIllegalStateException from the C source.  Despite its
name, its body looks up the class java/lang/NoClassDefFoundError via
FindClass and throws that class with the given message (FindClass on this
core JDK class is modelled as always succeeding). -/
def throwIllegalStateException (message : String) : Event :=
  Event.throwEx "java/lang/NoClassDefFoundError" message

/-- One wrapper-construction failure branch of nOpen: UnmapViewOfFile on
the view, CloseHandle on the handle, then a throw call that the C source
guards with the test hFileMapping == NULL.  The preceding CloseHandle call
does not change the local variable hFileMapping, so the throw fires only
when the handle variable holds 0 at that point.  None of these branches
returns: control falls through to the next statement. -/
def unwindBlock (h a : Nat) (msg : String) : List Event :=
  [Event.unmapView a, Event.closeHandle h]
    ++ (if h = 0 then [throwIllegalStateException msg] else [])

/-- Tail of nOpen after the handle has been resolved (the parameter h) and
the JNI string released, given the trace so far.  Mirrors lines 59 to 91 of
the C source: MapViewOfFile; on mapping failure CloseHandle and return
NULL; otherwise malloc the GW2MLinstance and store (h, view address) in it,
call NewDirectByteBuffer, FindClass, GetMethodID, running the corresponding
unwind block on each failure without returning, and finally call NewObject
and return its result. -/
def nOpenRest (e : OpenEnv) (h : Nat) (evs0 : List Event) :
    List Event × JObjectRet :=
  let a := e.mapViewOfFile h
  if a = 0 then
    (evs0 ++ [Event.closeHandle h], JObjectRet.null)
  else
    let inst : GW2MLinstance := ⟨h, a⟩
    let buffer : Option DirectBuffer :=
      if e.newDirectByteBufferOk then some ⟨a, MUMBLE_LINK_BYTES⟩ else none
    let evs1 := evs0 ++ [Event.mallocInstance inst]
      ++ (if e.newDirectByteBufferOk then []
          else unwindBlock h a "Failed to create new direct ByteBuffer.")
      ++ (if e.findClassOk then []
          else unwindBlock h a "Failed to find MumbleLink class.")
      ++ (if e.getMethodIDOk then []
          else unwindBlock h a "Failed to find MumbleLink constructor.")
    (evs1,
      if e.newObjectOk then JObjectRet.obj inst buffer e.name
      else JObjectRet.null)

/-- The JNI entry point nOpen.  OpenFileMappingA with FILE_MAP_READ on the
given name; if that returns NULL, CreateFileMappingA with PAGE_READWRITE
and maximum size MUMBLE_LINK_BYTES on the same name, release the JNI
string, and throw if creation also returned NULL (without returning);
otherwise just release the JNI string.  Then continue with nOpenRest. -/
def nOpen (e : OpenEnv) : List Event × JObjectRet :=
  if e.openFileMapping = 0 then
    nOpenRest e e.createFileMapping
      ([Event.openFileMappingCall e.name,
        Event.createFileMappingCall true MUMBLE_LINK_BYTES e.name,
        Event.releaseStringChars]
        ++ (if e.createFileMapping = 0 then
              [throwIllegalStateException "Failed to create FileMapping."]
            else []))
  else
    nOpenRest e e.openFileMapping
      [Event.openFileMappingCall e.name, Event.releaseStringChars]

/-- Outcome of nClose: either the ordered trace of its calls, or the marker
for dereferencing an address at which no live GW2MLinstance exists (the C
code casts the jlong to a pointer and dereferences it with no check, which
is an invalid dereference when the address is not a live allocation). -/
inductive CloseOutcome where
  | ok (events : List Event)
  | invalidDeref
  deriving DecidableEq

/-- The JNI entry point nClose.  The heap is modelled by the oracle mem
mapping addresses to the GW2MLinstance stored there (none when the address
is not a live allocation, e.g. 0 or an already freed address).  The
parameters unmapOk and closeOk are the results of UnmapViewOfFile and
CloseHandle; the C code discards both, so they do not occur in the body. -/
def nClose (mem : Nat → Option GW2MLinstance) (unmapOk closeOk : Bool)
    (address : Nat) : CloseOutcome :=
  match mem address with
  | none => CloseOutcome.invalidDeref
  | some inst =>
      CloseOutcome.ok
        [Event.unmapView inst.linkedMem,
         Event.closeHandle inst.hFileMapping,
         Event.freeInstance]

/-- Trace of a close outcome (empty for the invalid-dereference marker). -/
def closeEvents : CloseOutcome → List Event
  | CloseOutcome.ok evs => evs
  | CloseOutcome.invalidDeref => []

/-- Number of CloseHandle calls on handle h in a trace. -/
def closeCount (evs : List Event) (h : Nat) : Nat :=
  (evs.filter (fun ev => ev = Event.closeHandle h)).length

/-- Number of UnmapViewOfFile calls on address a in a trace. -/
def unmapCount (evs : List Event) (a : Nat) : Nat :=
  (evs.filter (fun ev => ev = Event.unmapView a)).length

/-- Whether an event is an exception throw. -/
def isThrowEv : Event → Bool
  | Event.throwEx _ _ => true
  | _ => false

/-- Number of exception throws in a trace. -/
def throwCount (evs : List Event) : Nat :=
  (evs.filter isThrowEv).length

/-- The handle nOpen resolves in its first phase: the OpenFileMappingA
result if non-NULL, otherwise the CreateFileMappingA result. -/
def resolvedHandle (e : OpenEnv) : Nat :=
  if e.openFileMapping = 0 then e.createFileMapping else e.openFileMapping

/-- The view address MapViewOfFile yields for the resolved handle. -/
def resolvedView (e : OpenEnv) : Nat :=
  e.mapViewOfFile (resolvedHandle e)

/-- Region handles still held when nOpen returns: one acquired when the
resolved handle is non-NULL, minus the CloseHandle calls on it (truncated
at zero). -/
def heldHandles (e : OpenEnv) : Nat :=
  (if resolvedHandle e = 0 then 0 else 1)
    - closeCount (nOpen e).1 (resolvedHandle e)

/-- Mapped views still held when nOpen returns: one acquired when the
resolved view address is non-NULL, minus the UnmapViewOfFile calls on it
(truncated at zero). -/
def heldViews (e : OpenEnv) : Nat :=
  (if resolvedView e = 0 then 0 else 1)
    - unmapCount (nOpen e).1 (resolvedView e)

/-- Environment in which an existing mapping (handle 5) is opened, mapping
succeeds (address 9), but NewDirectByteBuffer returns NULL while the class
and constructor lookups succeed. -/
def envWrapperFail : OpenEnv :=
  { name := "MumbleLink", openFileMapping := 5, createFileMapping := 0,
    mapViewOfFile := fun h => if h = 5 then 9 else 0,
    newDirectByteBufferOk := false, findClassOk := true,
    getMethodIDOk := true, newObjectOk := true }

/-- Environment in which mapping succeeds but two wrapper sub-steps fail:
NewDirectByteBuffer returns NULL and GetMethodID returns NULL. -/
def envDoubleFail : OpenEnv :=
  { name := "MumbleLink", openFileMapping := 5, createFileMapping := 0,
    mapViewOfFile := fun h => if h = 5 then 9 else 0,
    newDirectByteBufferOk := false, findClassOk := true,
    getMethodIDOk := false, newObjectOk := true }

/-- Environment in which an existing mapping (handle 5) is opened but
MapViewOfFile fails for every handle. -/
def envMapFail : OpenEnv :=
  { name := "MumbleLink", openFileMapping := 5, createFileMapping := 0,
    mapViewOfFile := fun _ => 0,
    newDirectByteBufferOk := true, findClassOk := true,
    getMethodIDOk := true, newObjectOk := true }

/-- Environment in which no existing mapping can be opened and creating a
new one also fails; MapViewOfFile fails on every handle (in particular on
the NULL handle, as the OS guarantees). -/
def envCreateFail : OpenEnv :=
  { name := "MumbleLink", openFileMapping := 0, createFileMapping := 0,
    mapViewOfFile := fun _ => 0,
    newDirectByteBufferOk := true, findClassOk := true,
    getMethodIDOk := true, newObjectOk := true }

/-- Environment in which every step of nOpen succeeds: handle 5, view
address 9. -/
def envSuccess : OpenEnv :=
  { name := "MumbleLink", openFileMapping := 5, createFileMapping := 0,
    mapViewOfFile := fun h => if h = 5 then 9 else 0,
    newDirectByteBufferOk := true, findClassOk := true,
    getMethodIDOk := true, newObjectOk := true }

/-- Example heap for nClose: a single live GW2MLinstance with handle 5 and
view address 9, stored at address 7. -/
def memExample : Nat → Option GW2MLinstance :=
  fun a => if a = 7 then some ⟨5, 9⟩ else none

/-- Helper: no wrapper-failure unwind block frees the tracking structure. -/
lemma freeInstance_not_mem_unwindBlock (h a : Nat) (msg : String) :
    Event.freeInstance ∉ unwindBlock h a msg := by
  unfold unwindBlock throwIllegalStateException
  by_cases h0 : h = 0 <;> simp [h0]

/-- Helper: the tail of nOpen never frees the tracking structure if the
trace so far does not. -/
lemma freeInstance_not_mem_nOpenRest (e : OpenEnv) (h : Nat)
    (evs0 : List Event) (h0 : Event.freeInstance ∉ evs0) :
    Event.freeInstance ∉ (nOpenRest e h evs0).1 := by
  unfold nOpenRest
  by_cases ha : e.mapViewOfFile h = 0 <;>
    simp [ha, h0, freeInstance_not_mem_unwindBlock]

/-- Helper: the tail of nOpen keeps every event already in the trace. -/
lemma mem_nOpenRest_of_mem {e : OpenEnv} {h : Nat} {evs0 : List Event}
    {ev : Event} (hmem : ev ∈ evs0) : ev ∈ (nOpenRest e h evs0).1 := by
  unfold nOpenRest
  by_cases ha : e.mapViewOfFile h = 0 <;> simp [ha, hmem]

/-- Helper: any throw inside an unwind block carries the class
java/lang/NoClassDefFoundError. -/
lemma throwClass_of_mem_unwindBlock {c m : String} {h a : Nat} {msg : String}
    (hmem : Event.throwEx c m ∈ unwindBlock h a msg) :
    c = "java/lang/NoClassDefFoundError" := by
  unfold unwindBlock throwIllegalStateException at hmem
  by_cases h0 : h = 0 <;> simp [h0] at hmem
  exact hmem.1

/-- Helper: any throw in the trace of the tail of nOpen is either in the
trace so far or carries the class java/lang/NoClassDefFoundError. -/
lemma throwClass_of_mem_nOpenRest {e : OpenEnv} {h : Nat} {evs0 : List Event}
    {c m : String} (hmem : Event.throwEx c m ∈ (nOpenRest e h evs0).1) :
    Event.throwEx c m ∈ evs0 ∨ c = "java/lang/NoClassDefFoundError" := by
  unfold nOpenRest at hmem
  by_cases ha : e.mapViewOfFile h = 0 <;> simp [ha] at hmem
  · exact Or.inl hmem
  · rcases hmem with hmem | hmem | hmem | hmem
    · exact Or.inl hmem
    all_goals exact Or.inr (throwClass_of_mem_unwindBlock hmem.2)

/-- Helper: when the tail of nOpen returns a MumbleLink object with a
non-NULL buffer, the tracking structure stores the resolved handle and the
mapped address, and the buffer wraps that address with capacity
MUMBLE_LINK_BYTES. -/
lemma obj_of_nOpenRest {e : OpenEnv} {h : Nat} {evs0 : List Event}
    {inst : GW2MLinstance} {buf : DirectBuffer} {nm : String}
    (hret : (nOpenRest e h evs0).2 = JObjectRet.obj inst (some buf) nm) :
    inst = ⟨h, e.mapViewOfFile h⟩ ∧
      buf = ⟨e.mapViewOfFile h, MUMBLE_LINK_BYTES⟩ := by
  unfold nOpenRest at hret
  by_cases ha : e.mapViewOfFile h = 0 <;> simp [ha] at hret
  by_cases hb : e.newObjectOk <;> simp [hb] at hret
  by_cases hc : e.newDirectByteBufferOk <;> simp [hc] at hret
  obtain ⟨h1, h2, h3⟩ := hret
  exact ⟨h1.symm, h2.symm⟩

/-- C1: evaluation of nOpen where mapping succeeds (handle 5, view 9) and
NewDirectByteBuffer fails while class and constructor lookup succeed.  The
view is unmapped and the handle closed once each, but no exception is
thrown (the throw in the source is guarded by hFileMapping == NULL, which
is false here) and a MumbleLink object is still returned, with a NULL
buffer and with its tracking structure pointing at the released resources.
This refutes the claim that open raises an error and returns no wrapper on
a wrapper-construction failure. -/
theorem C1_wrapper_failure_eval :
    (nOpen envWrapperFail).2 = JObjectRet.obj ⟨5, 9⟩ none "MumbleLink" ∧
    throwCount (nOpen envWrapperFail).1 = 0 ∧
    unmapCount (nOpen envWrapperFail).1 9 = 1 ∧
    closeCount (nOpen envWrapperFail).1 5 = 1 := by decide

/-- C2: evaluation of nOpen where mapping succeeds (handle 5, view 9) and
both NewDirectByteBuffer and GetMethodID fail.  Because no unwind branch
returns, the view is unmapped twice and the handle closed twice,
contradicting the claim that every partial acquisition is released exactly
once on a failure path; no exception is thrown either. -/
theorem C2_double_release_eval :
    closeCount (nOpen envDoubleFail).1 5 = 2 ∧
    unmapCount (nOpen envDoubleFail).1 9 = 2 ∧
    throwCount (nOpen envDoubleFail).1 = 0 := by decide

/-- C3 counterexample: with an object handle obtained (handle 5) and
mapping failing, nOpen throws nothing at all — it merely closes the handle
and returns NULL — refuting the part of the claim that says open fails by
raising a mapping error. -/
theorem C3_no_mapping_error_counterexample :
    resolvedHandle envMapFail ≠ 0 ∧
    envMapFail.mapViewOfFile (resolvedHandle envMapFail) = 0 ∧
    throwCount (nOpen envMapFail).1 = 0 ∧
    (nOpen envMapFail).2 = JObjectRet.null := by decide

/-- C3 (amended): for every call in which an object handle was obtained but
mapping the object fails, nOpen closes that handle exactly once and returns
NULL, raising no error, and holds no OS resources afterwards. -/
theorem C3_mapping_failure_amended (e : OpenEnv)
    (hh : resolvedHandle e ≠ 0)
    (hm : e.mapViewOfFile (resolvedHandle e) = 0) :
    (nOpen e).2 = JObjectRet.null ∧
    closeCount (nOpen e).1 (resolvedHandle e) = 1 ∧
    throwCount (nOpen e).1 = 0 ∧
    heldHandles e = 0 ∧ heldViews e = 0 := by
  unfold heldHandles heldViews resolvedView
  unfold resolvedHandle at hh hm ⊢
  by_cases ho : e.openFileMapping = 0 <;>
    simp [ho] at hh hm ⊢ <;>
    simp [nOpen, nOpenRest, ho, hm, hh, closeCount, unmapCount, throwCount,
      isThrowEv, List.filter]

/-- C3 witness: the amended statement instantiated at envMapFail. -/
theorem C3_mapping_failure_witness :
    (nOpen envMapFail).2 = JObjectRet.null ∧
    closeCount (nOpen envMapFail).1 (resolvedHandle envMapFail) = 1 ∧
    throwCount (nOpen envMapFail).1 = 0 ∧
    heldHandles envMapFail = 0 ∧ heldViews envMapFail = 0 :=
  C3_mapping_failure_amended envMapFail (by decide) (by decide)

/-- C4: on every call in which no existing object can be opened
(OpenFileMappingA returned NULL) — whether or not the subsequent creation
succeeds — nOpen calls CreateFileMappingA with read-write protection,
maximum size MUMBLE_LINK_BYTES = 5460, and the same name; and if that
creation also returns NULL then — given the OS guarantee that mapping a
NULL handle fails — nOpen raises an error (the throw with message Failed
to create FileMapping.), returns NULL, and holds no region handle and no
mapped view afterwards. -/
theorem C4_create_fallback (e : OpenEnv)
    (hopen : e.openFileMapping = 0) :
    Event.createFileMappingCall true MUMBLE_LINK_BYTES e.name ∈ (nOpen e).1 ∧
    (e.createFileMapping = 0 → e.mapViewOfFile 0 = 0 →
      throwIllegalStateException "Failed to create FileMapping."
        ∈ (nOpen e).1 ∧
      (nOpen e).2 = JObjectRet.null ∧
      heldHandles e = 0 ∧ heldViews e = 0) := by
  constructor
  · unfold nOpen
    simp [hopen]
    apply mem_nOpenRest_of_mem
    simp
  · intro hcreate hos
    simp [nOpen, nOpenRest, hopen, hcreate, hos, heldHandles, heldViews,
      resolvedHandle, resolvedView, closeCount, unmapCount,
      throwIllegalStateException, List.filter]

/-- C4 witness: the statement instantiated at envCreateFail, where creation
also fails. -/
theorem C4_create_fallback_witness :
    Event.createFileMappingCall true MUMBLE_LINK_BYTES envCreateFail.name
      ∈ (nOpen envCreateFail).1 ∧
    (throwIllegalStateException "Failed to create FileMapping."
      ∈ (nOpen envCreateFail).1 ∧
    (nOpen envCreateFail).2 = JObjectRet.null ∧
    heldHandles envCreateFail = 0 ∧ heldViews envCreateFail = 0) :=
  ⟨(C4_create_fallback envCreateFail (by decide)).1,
    (C4_create_fallback envCreateFail (by decide)).2 (by decide) (by decide)⟩

/-- C5: for every live session, nClose performs exactly, and in exactly
this order, UnmapViewOfFile on the stored view address, then CloseHandle on
the stored handle, then free of the tracking allocation. -/
theorem C5_close_order (mem : Nat → Option GW2MLinstance)
    (unmapOk closeOk : Bool) (address : Nat) (inst : GW2MLinstance)
    (hmem : mem address = some inst) :
    nClose mem unmapOk closeOk address =
      CloseOutcome.ok
        [Event.unmapView inst.linkedMem,
         Event.closeHandle inst.hFileMapping,
         Event.freeInstance] := by
  simp [nClose, hmem]

/-- C5 witness: the statement instantiated at memExample, address 7. -/
theorem C5_close_order_witness :
    nClose memExample true true 7 =
      CloseOutcome.ok
        [Event.unmapView (GW2MLinstance.mk 5 9).linkedMem,
         Event.closeHandle (GW2MLinstance.mk 5 9).hFileMapping,
         Event.freeInstance] :=
  C5_close_order memExample true true 7 ⟨5, 9⟩ (by decide)

/-- C6: nClose surfaces no error: whatever the results of UnmapViewOfFile
and CloseHandle, its outcome is the same as when both succeed, its trace
contains no throw, and all three teardown steps are present. -/
theorem C6_close_swallows (mem : Nat → Option GW2MLinstance)
    (unmapOk closeOk : Bool) (address : Nat) (inst : GW2MLinstance)
    (hmem : mem address = some inst) :
    nClose mem unmapOk closeOk address = nClose mem true true address ∧
    (∀ cls msg, Event.throwEx cls msg ∉
      closeEvents (nClose mem unmapOk closeOk address)) ∧
    Event.unmapView inst.linkedMem ∈
      closeEvents (nClose mem unmapOk closeOk address) ∧
    Event.closeHandle inst.hFileMapping ∈
      closeEvents (nClose mem unmapOk closeOk address) ∧
    Event.freeInstance ∈
      closeEvents (nClose mem unmapOk closeOk address) := by
  simp [nClose, hmem, closeEvents]

/-- C6 witness: the statement instantiated at memExample, address 7, with
both OS release calls failing. -/
theorem C6_close_swallows_witness :
    nClose memExample false false 7 = nClose memExample true true 7 ∧
    (∀ cls msg, Event.throwEx cls msg ∉
      closeEvents (nClose memExample false false 7)) ∧
    Event.unmapView (GW2MLinstance.mk 5 9).linkedMem ∈
      closeEvents (nClose memExample false false 7) ∧
    Event.closeHandle (GW2MLinstance.mk 5 9).hFileMapping ∈
      closeEvents (nClose memExample false false 7) ∧
    Event.freeInstance ∈ closeEvents (nClose memExample false false 7) :=
  C6_close_swallows memExample false false 7 ⟨5, 9⟩ (by decide)

/-- C7: whenever nOpen returns a MumbleLink object carrying a non-NULL
buffer, that buffer has capacity MUMBLE_LINK_BYTES = 5460 and wraps exactly
the mapped view address stored in the session (which is the address
MapViewOfFile returned for the resolved handle); no bytes are copied, the
buffer being a view of the address it stores. -/
theorem C7_zero_copy_view (e : OpenEnv) (inst : GW2MLinstance)
    (buf : DirectBuffer) (nm : String)
    (hret : (nOpen e).2 = JObjectRet.obj inst (some buf) nm) :
    buf.len = MUMBLE_LINK_BYTES ∧ buf.addr = inst.linkedMem ∧
      inst.linkedMem = resolvedView e := by
  unfold nOpen at hret
  by_cases ho : e.openFileMapping = 0 <;> simp [ho] at hret <;>
    obtain ⟨h1, h2⟩ := obj_of_nOpenRest hret <;>
    subst h1 <;> subst h2 <;>
    simp [resolvedView, resolvedHandle, ho]

/-- C7 witness: the statement instantiated at envSuccess, where nOpen
returns the object for handle 5 and view address 9. -/
theorem C7_zero_copy_view_witness :
    (DirectBuffer.mk 9 MUMBLE_LINK_BYTES).len = MUMBLE_LINK_BYTES ∧
    (DirectBuffer.mk 9 MUMBLE_LINK_BYTES).addr =
      (GW2MLinstance.mk 5 9).linkedMem ∧
    (GW2MLinstance.mk 5 9).linkedMem = resolvedView envSuccess :=
  C7_zero_copy_view envSuccess ⟨5, 9⟩ ⟨9, MUMBLE_LINK_BYTES⟩ "MumbleLink"
    (by decide)

/-- C8: the helper throwIllegalStateException throws the class
java/lang/NoClassDefFoundError for every message, and every throw in any
nOpen trace carries that single class — the three spec-level error names
are not distinguished by exception type. -/
theorem C8_single_throw_class :
    (∀ msg, throwIllegalStateException msg =
      Event.throwEx "java/lang/NoClassDefFoundError" msg) ∧
    (∀ (e : OpenEnv) (c m : String),
      Event.throwEx c m ∈ (nOpen e).1 →
        c = "java/lang/NoClassDefFoundError") := by
  constructor
  · intro msg; rfl
  · intro e c m hmem
    unfold nOpen at hmem
    by_cases ho : e.openFileMapping = 0 <;> simp [ho] at hmem <;>
      rcases throwClass_of_mem_nOpenRest hmem with hbase | hcls
    · simp [throwIllegalStateException] at hbase
      by_cases hc2 : e.createFileMapping = 0 <;> simp [hc2] at hbase
      exact hbase.1
    · exact hcls
    · simp at hbase
    · exact hcls

/-- C8 witness: the membership hypothesis instantiated with the throw nOpen
produces at envCreateFail. -/
theorem C8_single_throw_class_witness :
    Event.throwEx "java/lang/NoClassDefFoundError"
      "Failed to create FileMapping." ∈ (nOpen envCreateFail).1 ∧
    "java/lang/NoClassDefFoundError" = "java/lang/NoClassDefFoundError" :=
  ⟨by decide,
    C8_single_throw_class.2 envCreateFail "java/lang/NoClassDefFoundError"
      "Failed to create FileMapping." (by decide)⟩

/-- C9: nOpen never frees the tracking allocation on any path (in
particular on every post-allocation failure path), and nClose on a live
session does free it — freeing is done only by close. -/
theorem C9_open_never_frees :
    (∀ e : OpenEnv, Event.freeInstance ∉ (nOpen e).1) ∧
    (∀ (mem : Nat → Option GW2MLinstance) (u c : Bool) (addr : Nat)
      (inst : GW2MLinstance), mem addr = some inst →
      Event.freeInstance ∈ closeEvents (nClose mem u c addr)) := by
  constructor
  · intro e
    unfold nOpen
    by_cases ho : e.openFileMapping = 0 <;> simp [ho] <;>
      apply freeInstance_not_mem_nOpenRest <;>
      by_cases hc2 : e.createFileMapping = 0 <;>
      simp [hc2, throwIllegalStateException]
  · intro mem u c addr inst hmem
    simp [nClose, hmem, closeEvents]

/-- C9 witness: instantiated at the wrapper-failure environment (a
post-allocation failure path of nOpen) and at memExample for nClose. -/
theorem C9_open_never_frees_witness :
    Event.freeInstance ∉ (nOpen envWrapperFail).1 ∧
    Event.freeInstance ∈ closeEvents (nClose memExample true true 7) :=
  ⟨C9_open_never_frees.1 envWrapperFail,
    C9_open_never_frees.2 memExample true true 7 ⟨5, 9⟩ (by decide)⟩

/-- C10: nClose dereferences the supplied session reference with no null or
validity check: for every address at which no live tracking structure
exists (address 0 included), the call is an invalid dereference, not a
signaled error and not a no-op. -/
theorem C10_close_unguarded (mem : Nat → Option GW2MLinstance)
    (unmapOk closeOk : Bool) (address : Nat)
    (hmem : mem address = none) :
    nClose mem unmapOk closeOk address = CloseOutcome.invalidDeref := by
  simp [nClose, hmem]

/-- C10 witness: the statement instantiated at the NULL reference on a heap
with no live allocation at address 0. -/
theorem C10_close_unguarded_witness :
    nClose memExample true true 0 = CloseOutcome.invalidDeref :=
  C10_close_unguarded memExample true true 0 (by decide)
